import Mathlib

set_option autoImplicit false

/-!
Verification development for the Straeto bus-information module
(`src/bus/bus.py`).  The Python module is shallowly embedded below:

* the fleet-state cache (`Bus._all_buses`, `Bus._timestamp`,
  `Bus._fetch_state`, `Bus._read_state`, `Bus._load_state`,
  `Bus.refresh_state`, `Bus.buses_on_route`) is modelled as explicit
  state passing over a `BusState` record, with the HTTP fetch and the
  local-file read represented by behaviour oracles
  (`FetchBehavior`, `ReadBehavior`);
* Python exceptions are modelled by an `Option PyErr` component of each
  step result: `some e` means the Python call raised and the mutations
  performed before the raise are visible in the returned state;
* Python `dict` / `defaultdict(list)` values are modelled as
  insertion-ordered association lists;
* `datetime.utcnow()` is modelled by a `now : Nat` parameter (seconds).
-/

namespace Straeto

/-- Python exception kinds relevant to the embedded code paths. -/
inductive PyErr where
  | netError        -- requests.get raised (network error)
  | parseError      -- ET.fromstring raised (malformed response body)
  | fileError       -- ET.parse raised (local status file unavailable/bad)
  | valueError      -- float()/int()/assert failure while building one bus
  | typeError       -- subscripting a None collection
  | assertionError  -- assert statement failed
  | indexError      -- list index out of range
  deriving DecidableEq, Repr

/-- One entry of the live snapshot: the fields of a `Bus` instance.
Float attributes are modelled as rationals. -/
structure Sighting where
  route_id : Option String
  stop : Option String
  next_stop : Option String
  lat : Rat
  lon : Rat
  heading : Rat
  code : Int
  deriving DecidableEq, Repr

/-- A `<bus>` element of the status document, attributes already fetched via
`bus.get(...)` and converted: a `none` in a numeric field means the Python
conversion (`float(...)`/`int(...)`) raises for that attribute (the attribute
is missing or malformed). -/
structure RawBus where
  lat : Option Rat
  lon : Option Rat
  head : Option Rat
  route : Option String
  stop : Option String
  next : Option String
  code : Option Int
  deriving DecidableEq, Repr

/-- The model of `Bus._all_buses : defaultdict(list)`: an insertion-ordered
association list from route id (which may be `None`) to the list of buses. -/
abbrev RouteMap := List (Option String × List Sighting)

/-- Dictionary lookup on a `RouteMap`. -/
def rmLookup : RouteMap → Option String → Option (List Sighting)
  | [], _ => none
  | (k', l) :: m, k => if k' = k then some l else rmLookup m k

/-- The effect of `Bus._all_buses[route_id].append(bus)` on a
`defaultdict(list)`: append in place when the key exists, otherwise insert the
key at the end mapped to the one-element list. -/
def rmAppend : RouteMap → Option String → Sighting → RouteMap
  | [], k, v => [(k, [v])]
  | (k', l) :: m, k, v =>
      if k' = k then (k', l ++ [v]) :: m else (k', l) :: rmAppend m k v

/-- The effect of reading `Bus._all_buses[route_id]` on a `defaultdict(list)`:
return the stored list when the key exists, otherwise insert the key mapped to
the empty list (a mutation!) and return that empty list. -/
def rmGetDefault (m : RouteMap) (k : Option String) : List Sighting × RouteMap :=
  match rmLookup m k with
  | some l => (l, m)
  | none => ([], m ++ [(k, [])])

/-- Behaviour of one `requests.get(_STATUS_URL)` call together with the
subsequent body parse in `Bus._fetch_state`. -/
inductive FetchBehavior where
  | ok (buses : List RawBus)  -- success status code, body parses
  | badStatus                 -- a response arrived with a non-success status
  | netError                  -- requests.get raised
  | badBody                   -- success status but ET.fromstring raised
  deriving DecidableEq, Repr

/-- Behaviour of one `ET.parse(_STATUS_FILE)` call in `Bus._read_state`. -/
inductive ReadBehavior where
  | ok (buses : List RawBus)  -- local file present and well-formed
  | err                       -- ET.parse raised
  deriving DecidableEq, Repr

/-- Embedding of `Bus._fetch_state`: returns `some root` on a success status,
`none` otherwise ("state not available"); raises when `requests.get` or
`ET.fromstring` raises. -/
def fetch_state : FetchBehavior → Except PyErr (Option (List RawBus))
  | .ok bs => .ok (some bs)
  | .badStatus => .ok none
  | .netError => .error .netError
  | .badBody => .error .parseError

/-- Embedding of `Bus._read_state`: returns the parsed root or raises. -/
def read_state : ReadBehavior → Except PyErr (List RawBus)
  | .ok bs => .ok bs
  | .err => .error .fileError

/-- Embedding of the body of the `for bus in root.findall('bus')` loop for one
element: the `float`/`int` conversions and the range asserts in
`Bus.__init__`; `none` means the iteration raised. -/
def mkSighting? (b : RawBus) : Option Sighting := do
  let lat ← b.lat
  let lon ← b.lon
  let heading ← b.head
  let code ← b.code
  if -90 ≤ lat ∧ lat ≤ 90 ∧ -180 ≤ lon ∧ lon ≤ 180 then
    pure ⟨b.route, b.stop, b.next, lat, lon, heading, code⟩
  else none

/-- The bus-construction loop of `Bus._load_state`: builds up the route map;
on the first bad record it stops, leaving the partially built map visible
(the Python loop raises mid-way). -/
def addBuses : List RawBus → RouteMap → RouteMap × Option PyErr
  | [], m => (m, none)
  | b :: bs, m =>
      match mkSighting? b with
      | some s => addBuses bs (rmAppend m s.route_id s)
      | none => (m, some .valueError)

/-- The mutable class state of `Bus`: `_all_buses` (initially `None`) and
`_timestamp` (initially `None`). -/
structure BusState where
  all_buses : Option RouteMap
  timestamp : Option Nat
  deriving DecidableEq, Repr

/-- Result of one call into the refresh machinery: the class state after the
call, the exception if one propagated, and how many HTTP fetches and local
file reads were performed. -/
structure StepResult where
  state : BusState
  err : Option PyErr
  fetches : Nat
  reads : Nat
  deriving DecidableEq, Repr

/-- Final part of `Bus._load_state`: build the route map from the parsed root
and stamp the timestamp only if the whole loop succeeded. -/
def buildFrom (cleared : BusState) (root : List RawBus) (now : Nat)
    (nf nr : Nat) : StepResult :=
  match addBuses root [] with
  | (m, none) => ⟨⟨some m, some now⟩, none, nf, nr⟩
  | (m, some e) => ⟨⟨some m, cleared.timestamp⟩, some e, nf, nr⟩

/-- Embedding of `Bus._load_state`: clears `_all_buses` to a fresh empty
defaultdict FIRST, then attempts the HTTP fetch, falling back to the local
file only when the fetch returned `None`; exceptions propagate, leaving the
already-performed mutations in place. -/
def load_state (f : FetchBehavior) (r : ReadBehavior) (now : Nat)
    (s : BusState) : StepResult :=
  let cleared : BusState := { s with all_buses := some [] }
  match fetch_state f with
  | .error e => ⟨cleared, some e, 1, 0⟩
  | .ok (some root) => buildFrom cleared root now 1 0
  | .ok none =>
      match read_state r with
      | .error e => ⟨cleared, some e, 1, 1⟩
      | .ok root => buildFrom cleared root now 1 1

/-- Embedding of `Bus.refresh_state` (the body under the lock): if a timestamp
exists and is less than 60 seconds old, return at once; otherwise run
`_load_state`. -/
def refresh_state (f : FetchBehavior) (r : ReadBehavior) (now : Nat)
    (s : BusState) : StepResult :=
  match s.timestamp with
  | some t => if now - t < 60 then ⟨s, none, 0, 0⟩ else load_state f r now s
  | none => load_state f r now s

/-- Result of a query entry point (`buses_on_route` / `all_buses`): the value
returned to the caller (`none` when an exception propagated instead), plus
the step bookkeeping. -/
structure QueryResult (α : Type) where
  value : Option α
  state : BusState
  err : Option PyErr
  fetches : Nat
  reads : Nat
  deriving DecidableEq, Repr

/-- Embedding of `Bus.buses_on_route`: refresh, then subscript the
defaultdict (which inserts the key when absent). -/
def buses_on_route (f : FetchBehavior) (r : ReadBehavior) (now : Nat)
    (s : BusState) (rid : String) : QueryResult (List Sighting) :=
  let res := refresh_state f r now s
  match res.err with
  | some e => ⟨none, res.state, some e, res.fetches, res.reads⟩
  | none =>
      match res.state.all_buses with
      | some m =>
          let p := rmGetDefault m (some rid)
          ⟨some p.1, { res.state with all_buses := some p.2 }, none,
            res.fetches, res.reads⟩
      | none => ⟨none, res.state, some .typeError, res.fetches, res.reads⟩

/-- Embedding of `Bus.all_buses`: refresh, then return the whole dict. -/
def all_buses (f : FetchBehavior) (r : ReadBehavior) (now : Nat)
    (s : BusState) : QueryResult RouteMap :=
  let res := refresh_state f r now s
  match res.err with
  | some e => ⟨none, res.state, some e, res.fetches, res.reads⟩
  | none =>
      match res.state.all_buses with
      | some m => ⟨some m, res.state, none, res.fetches, res.reads⟩
      | none => ⟨none, res.state, none, res.fetches, res.reads⟩

/-! Calendar dates, modelling Python `datetime.date`. -/

/-- A Python `datetime.date` value (guaranteed valid on construction). -/
structure PyDate where
  year : Nat
  month : Nat
  day : Nat
  deriving DecidableEq, Repr

/-- Gregorian leap-year test, as in Python's `calendar.isleap`. -/
def isLeap (y : Nat) : Bool :=
  y % 4 == 0 && (y % 100 != 0 || y % 400 == 0)

/-- Days in each month, January first. -/
def monthLengths (leap : Bool) : List Nat :=
  [31, if leap then 29 else 28, 31, 30, 31, 30, 31, 31, 30, 31, 30, 31]

/-- Number of days in month `m` (1-based) of year `y`. -/
def daysInMonth (y m : Nat) : Nat :=
  (monthLengths (isLeap y)).getD (m - 1) 0

/-- Days before January 1st of year `y` in the proleptic Gregorian calendar. -/
def daysBeforeYear (y : Nat) : Nat :=
  let n := y - 1
  n * 365 + n / 4 - n / 100 + n / 400

/-- Days in year `y` before the first of month `m` (1-based). -/
def daysBeforeMonth (y m : Nat) : Nat :=
  ((monthLengths (isLeap y)).take (m - 1)).foldr (· + ·) 0

/-- Python `date.toordinal()`: day 1 is 0001-01-01. -/
def toOrdinal (d : PyDate) : Nat :=
  daysBeforeYear d.year + daysBeforeMonth d.year d.month + d.day

/-- Python `date.weekday()`: Monday is 0.  0001-01-01 (ordinal 1) is a
Monday in the proleptic Gregorian calendar. -/
def pyWeekday (d : PyDate) : Nat :=
  (toOrdinal d + 6) % 7

/-- Python `date` comparison `a <= b`: lexicographic on (year, month, day). -/
def dateLe (a b : PyDate) : Bool :=
  decide (a.year < b.year ∨ (a.year = b.year ∧
    (a.month < b.month ∨ (a.month = b.month ∧ a.day ≤ b.day))))

/-- Validity check of the Python `date(y, m, d)` constructor: raises unless
`MINYEAR <= y <= MAXYEAR`, `1 <= m <= 12` and `1 <= d <= days_in_month`. -/
def mkDate? (y m d : Int) : Option PyDate :=
  if 1 ≤ y ∧ y ≤ 9999 ∧ 1 ≤ m ∧ m ≤ 12 ∧ 1 ≤ d ∧
      d ≤ (daysInMonth y.toNat m.toNat : Int) then
    some ⟨y.toNat, m.toNat, d.toNat⟩
  else
    none

/-! String helpers, modelling the Python primitives used by the module. -/

/-- Decimal value of a list of digit characters. -/
def digitsVal (l : List Char) : Nat :=
  l.foldl (fun a c => a * 10 + (c.toNat - 48)) 0

/-- Value of a nonempty all-digit string, `none` otherwise. -/
def digitsVal? (l : List Char) : Option Nat :=
  match l with
  | [] => none
  | _ => if l.all Char.isDigit then some (digitsVal l) else none

/-- Python `int(s)` on the string fragments used here: an optional sign
followed by at least one decimal digit; `none` means `int` raises
`ValueError`.  (Whitespace padding and `_` digit separators, which Python
also accepts, do not occur in service codes and are not modelled.) -/
def pyInt? (s : String) : Option Int :=
  match s.toList with
  | [] => none
  | c :: rest =>
      if c = '-' then (digitsVal? rest).map (fun n => -(n : Int))
      else if c = '+' then (digitsVal? rest).map (fun n => (n : Int))
      else (digitsVal? (c :: rest)).map (fun n => (n : Int))

/-- Python slice `s[a:b]` for `0 <= a <= b` (clamped at the string's end). -/
def pySlice (s : String) (a b : Nat) : String :=
  ⟨(s.toList.drop a).take (b - a)⟩

/-- Python `s.split(sep)` for a one-character separator, on char lists. -/
def splitOnChar (sep : Char) : List Char → List (List Char)
  | [] => [[]]
  | c :: cs =>
      let r := splitOnChar sep cs
      if c = sep then [] :: r
      else
        match r with
        | [] => [[c]]
        | p :: ps => (c :: p) :: ps

/-- Python `s.split(sep)` for a one-character separator. -/
def pySplit (s : String) (sep : Char) : List String :=
  (splitOnChar sep s.toList).map (fun l => ⟨l⟩)

/-- Python `s.strip()` (over the ASCII whitespace that occurs here). -/
def pyStrip (s : String) : String :=
  ⟨((s.toList.dropWhile Char.isWhitespace).reverse.dropWhile
      Char.isWhitespace).reverse⟩

/-! The static schedule catalog: `BusService`, `BusTrip`, `BusRoute`. -/

/-- The decoded fields of a `BusService`: its id, the validity start date
decoded from characters 0-7 of the code, and the weekday mask decoded from
characters 9-15 (`True` where the character differs from `'-'`). -/
structure BusServiceData where
  id : String
  valid_from : PyDate
  weekdays : List Bool
  deriving DecidableEq, Repr

/-- Embedding of `BusService.__init__`: decode year/month/day from slices
`[0:4]`, `[4:6]`, `[6:8]` via `int(...)` and `date(...)`, and the weekday
mask from slice `[9:16]`; `none` means the constructor raises. -/
def busService? (service_id : String) : Option BusServiceData := do
  let y ← pyInt? (pySlice service_id 0 4)
  let mo ← pyInt? (pySlice service_id 4 6)
  let d ← pyInt? (pySlice service_id 6 8)
  let vf ← mkDate? y mo d
  pure ⟨service_id, vf, (pySlice service_id 9 16).toList.map (fun c => c ≠ '-')⟩

/-- Embedding of `BusService.is_active_on_date`: the Python `and` first
evaluates `self._valid_from <= on_date`; only when that is true does it index
the weekday list, which raises `IndexError` (modelled as `none`) when the
mask is shorter than the weekday index. -/
def is_active_on_date (s : BusServiceData) (d : PyDate) : Option Bool :=
  if dateLe s.valid_from d then s.weekdays.get? (pyWeekday d)
  else some false

/-- The fields of a `BusTrip`. -/
structure TripData where
  trip_id : String
  headsign : String
  short_name : String
  direction : String
  block : String
  deriving DecidableEq, Repr

/-- A `BusService` object together with its `_trips` dict (modelled by the
insertion-ordered list of trip ids). -/
structure ServiceEntry where
  data : BusServiceData
  trips : List String
  deriving DecidableEq, Repr

/-- The process-wide registries: `BusRoute._all_routes` (route id to the
insertion-ordered keys of the route's `_services` dict),
`BusService._all_services` and `BusTrip._all_trips`. -/
structure Catalog where
  all_routes : List (String × List String)
  all_services : List (String × ServiceEntry)
  all_trips : List (String × TripData)
  deriving DecidableEq, Repr

/-- The empty registries. -/
def emptyCatalog : Catalog := ⟨[], [], []⟩

/-- Dictionary lookup on an insertion-ordered association list. -/
def dLookup {β : Type} : List (String × β) → String → Option β
  | [], _ => none
  | (k', v) :: m, k => if k' = k then some v else dLookup m k

/-- Dictionary assignment `d[k] = v`: replace in place, else append. -/
def dInsert {β : Type} : List (String × β) → String → β → List (String × β)
  | [], k, v => [(k, v)]
  | (k', v') :: m, k, v =>
      if k' = k then (k', v) :: m else (k', v') :: dInsert m k v

/-- Update the value at an existing key in place (no-op when absent). -/
def dUpdate {β : Type} : List (String × β) → String → (β → β) → List (String × β)
  | [], _, _ => []
  | (k', v') :: m, k, g =>
      if k' = k then (k', g v') :: m else (k', v') :: dUpdate m k g

/-- Embedding of `BusRoute.get`: return the route, creating an empty one in
the registry if absent. -/
def route_get (c : Catalog) (rid : String) : Catalog :=
  match dLookup c.all_routes rid with
  | some _ => c
  | none => { c with all_routes := dInsert c.all_routes rid [] }

/-- Embedding of `BusService.get`: return the service if registered,
otherwise construct it by decoding the code (registering it), propagating the
constructor's exception (`none`) when the decode fails. -/
def service_get (c : Catalog) (sid : String) : Catalog × Option String :=
  match dLookup c.all_services sid with
  | some _ => (c, some sid)
  | none =>
      match busService? sid with
      | some svc =>
          ({ c with all_services := dInsert c.all_services sid ⟨svc, []⟩ }, some sid)
      | none => (c, none)

/-- Embedding of `route.add_service(service)`: `route._services[id] = service`
(key order preserved when already present). -/
def route_add_service (c : Catalog) (rid sid : String) : Catalog :=
  { c with all_routes :=
      dUpdate c.all_routes rid (fun l => if l.contains sid then l else l ++ [sid]) }

/-- Embedding of `BusTrip(...)`: registers the trip in `_all_trips`. -/
def trip_new (c : Catalog) (t : TripData) : Catalog :=
  { c with all_trips := dInsert c.all_trips t.trip_id t }

/-- Embedding of `service.add_trip(trip)`: `service._trips[id] = trip`. -/
def service_add_trip (c : Catalog) (sid tid : String) : Catalog :=
  let upd := fun (e : ServiceEntry) =>
    { e with trips := if e.trips.contains tid then e.trips else e.trips ++ [tid] }
  { c with all_services := dUpdate c.all_services sid upd }

/-- Processing of one non-blank, already-stripped data line of `trips.txt`
inside `BusRoute.initialize`: split on commas, assert exactly 8 fields,
strip the `'ST.'` prefix of the route id (an `IndexError` when there is no
`'.'`), then get-or-create the route and service, link them, and register the
trip.  On an exception (`some e`) the mutations already performed remain. -/
def procLine (c : Catalog) (line : String) : Catalog × Option PyErr :=
  let f := pySplit line ','
  if f.length = 8 then
    match pySplit (f.getD 0 "") '.' with
    | _ :: rid :: _ =>
        let c1 := route_get c rid
        match service_get c1 (f.getD 1 "") with
        | (c2, some sid) =>
            let c3 := route_add_service c2 rid sid
            let c4 := trip_new c3
              ⟨f.getD 2 "", f.getD 3 "", f.getD 4 "", f.getD 5 "", f.getD 6 ""⟩
            (service_add_trip c4 sid (f.getD 2 ""), none)
        | (c2, none) => (c2, some .valueError)
    | _ => (c, some .indexError)
  else (c, some .assertionError)

/-- The line loop of `BusRoute.initialize` over the lines after the header:
strip each line, skip blanks, stop at the first exception with the registries
as mutated so far. -/
def runLines : List String → Catalog → Catalog × Option PyErr
  | [], c => (c, none)
  | l :: ls, c =>
      let t := pyStrip l
      if t = "" then runLines ls c
      else
        match procLine c t with
        | (c', none) => runLines ls c'
        | (c', some e) => (c', some e)

/-- Embedding of `BusRoute.initialize` (named `initRoutes` here), over the
list of lines of `trips.txt`: reset `_all_routes` (and only `_all_routes`)
to an empty dict, skip the first line, then process the rest. -/
def initRoutes (lines : List String) (c : Catalog) : Catalog × Option PyErr :=
  runLines (lines.drop 1) { c with all_routes := [] }

/-- The cache is due for a refresh: no timestamp, or the snapshot is at least
60 seconds old. -/
def isStale (s : BusState) (now : Nat) : Prop :=
  s.timestamp = none ∨ ∃ t, s.timestamp = some t ∧ 60 ≤ now - t

/-- Both the remote and the local source are unavailable during the refresh:
either the fetch returns a non-success status and the local read raises, or
the fetch itself raises (in which case the local file is never consulted). -/
def totalFailure (f : FetchBehavior) (r : ReadBehavior) : Prop :=
  (f = .badStatus ∧ r = .err) ∨ f = .netError ∨ f = .badBody

/-! Specification-side encoder for service codes, used to state the decoding
theorem for `BusService.__init__` as a round trip. -/

/-- The decimal digit character for `k`, for `k < 10` (chosen arbitrarily as
`'9'` above that). -/
def digitCharAux : Nat → Char
  | 0 => '0' | 1 => '1' | 2 => '2' | 3 => '3' | 4 => '4'
  | 5 => '5' | 6 => '6' | 7 => '7' | 8 => '8' | _ => '9'

/-- The decimal digit character of `n mod 10`. -/
def digitChar (n : Nat) : Char := digitCharAux (n % 10)

/-- Zero-padded decimal rendering of `n` to exactly `w` digit characters
(most significant first). -/
def natToDigits : Nat → Nat → List Char
  | 0, _ => []
  | w + 1, n => natToDigits w (n / 10) ++ [digitChar n]

/-- A service code in the documented format: 4-digit year, 2-digit month,
2-digit day, a separator, then the weekday-mask characters. -/
def encodeCode (y mo d : Nat) (mask : List Char) : String :=
  ⟨natToDigits 4 y ++ natToDigits 2 mo ++ natToDigits 2 d ++ '-' :: mask⟩

/-! The `distance` function (GeoMetrics), embedded over the real numbers. -/

/-- Earth's radius in km (`_EARTH_RADIUS`). -/
noncomputable def EARTH_RADIUS : ℝ := 6371.0088

/-- Python `math.radians`. -/
noncomputable def radians (x : ℝ) : ℝ := x * (Real.pi / 180)

/-- Python `math.atan2` (C99 semantics on the reals; `atan2 0 0 = 0` as in
CPython). -/
noncomputable def atan2 (y x : ℝ) : ℝ :=
  if 0 < x then Real.arctan (y / x)
  else if x < 0 then
    (if 0 ≤ y then Real.arctan (y / x) + Real.pi else Real.arctan (y / x) - Real.pi)
  else (if 0 < y then Real.pi / 2 else if y < 0 then -(Real.pi / 2) else 0)

/-- Embedding of `distance`: the haversine great-circle distance, exactly as
written in the source. -/
noncomputable def distance (loc1 loc2 : ℝ × ℝ) : ℝ :=
  let lat1 := loc1.1
  let lat2 := loc2.1
  let dlat := radians (loc2.1 - loc1.1)
  let dlon := radians (loc2.2 - loc1.2)
  let slat := Real.sin (dlat / 2)
  let slon := Real.sin (dlon / 2)
  let a := slat * slat +
    Real.cos (radians lat1) * Real.cos (radians lat2) * slon * slon
  let c := 2 * atan2 (Real.sqrt a) (Real.sqrt (1 - a))
  EARTH_RADIUS * c

/-! Concrete fixtures for the loader theorems. -/

/-- The header line of `trips.txt` (ignored by the loader). -/
def tripsHeader : String :=
  "route_id,service_id,trip_id,trip_headsign,trip_short_name,direction_id,block_id,shape_id"

/-- A well-formed trips row: route `ST.1`, service `20240115-MTWTF--`,
trip `T1`. -/
def goodTripRow : String := "ST.1,20240115-MTWTF--,T1,Downtown,1A,0,B1,SH1"

/-- A second well-formed trips row naming different route/service/trip ids. -/
def secondTripRow : String := "ST.2,20240611------SS,T2,Uptown,2B,1,B2,SH2"

/-- The registries produced by processing `goodTripRow` on empty registries. -/
def goodTripCatalog : Catalog :=
  ⟨[("1", ["20240115-MTWTF--"])],
   [("20240115-MTWTF--",
     ⟨⟨"20240115-MTWTF--", ⟨2024, 1, 15⟩, [true, true, true, true, true, false, false]⟩,
      ["T1"]⟩)],
   [("T1", ⟨"T1", "Downtown", "1A", "0", "B1"⟩)]⟩

/-! Helper lemmas. -/

theorem refresh_state_fresh_eq (f : FetchBehavior) (r : ReadBehavior)
    (now t : Nat) (s : BusState) (ht : s.timestamp = some t)
    (h : now - t < 60) : refresh_state f r now s = ⟨s, none, 0, 0⟩ := by
  simp [refresh_state, ht, h]

theorem refresh_state_stale_eq (f : FetchBehavior) (r : ReadBehavior)
    (now : Nat) (s : BusState) (hs : isStale s now) :
    refresh_state f r now s = load_state f r now s := by
  rcases hs with h | ⟨t, ht, h60⟩
  · simp [refresh_state, h]
  · simp [refresh_state, ht, Nat.not_lt.mpr h60]

theorem rmLookup_append_absent (m : RouteMap) (k : Option String)
    (h : rmLookup m k = none) : rmLookup (m ++ [(k, [])]) k = some [] := by
  induction m with
  | nil => simp [rmLookup]
  | cons p m ih =>
      obtain ⟨k', l⟩ := p
      by_cases hk : k' = k
      · simp [rmLookup, hk] at h
      · simp only [rmLookup, hk, if_false, List.cons_append] at h ⊢
        exact ih h

/-! Theorems for the claims about the fleet-state cache. -/

/-- C3: if a snapshot exists and its capture timestamp is less than 60
seconds old, `refresh_state` returns without performing any remote fetch or
local read and the stored snapshot and timestamp are unchanged; a second call
still inside the window also performs zero fetches and reads. -/
theorem fresh_snapshot_skips_refresh (f f' : FetchBehavior) (r r' : ReadBehavior)
    (now now' t : Nat) (s : BusState) (ht : s.timestamp = some t)
    (h : now - t < 60) (h' : now' - t < 60) :
    refresh_state f r now s = ⟨s, none, 0, 0⟩ ∧
    refresh_state f' r' now' (refresh_state f r now s).state = ⟨s, none, 0, 0⟩ := by
  have h1 := refresh_state_fresh_eq f r now t s ht h
  refine ⟨h1, ?_⟩
  rw [h1]
  exact refresh_state_fresh_eq f' r' now' t s ht h'

/-- Witness for `fresh_snapshot_skips_refresh` at a concrete state. -/
theorem fresh_snapshot_skips_refresh_witness :
    refresh_state FetchBehavior.netError ReadBehavior.err 30 ⟨some [], some 0⟩ =
      ⟨⟨some [], some 0⟩, none, 0, 0⟩ ∧
    refresh_state FetchBehavior.badBody ReadBehavior.err 59
        (refresh_state FetchBehavior.netError ReadBehavior.err 30 ⟨some [], some 0⟩).state =
      ⟨⟨some [], some 0⟩, none, 0, 0⟩ :=
  fresh_snapshot_skips_refresh FetchBehavior.netError FetchBehavior.badBody
    ReadBehavior.err ReadBehavior.err 30 59 0 ⟨some [], some 0⟩ rfl
    (by decide) (by decide)

/-- C1 counterexample: with a previously held snapshot in place (route `"1"`
with one bus, captured at time 0) and both sources unavailable at time 100,
the refresh raises, yet the cache is left holding an emptied snapshot — the
previous snapshot does NOT remain in place. -/
theorem refresh_totalFailure_discards_snapshot_cex :
    (refresh_state FetchBehavior.badStatus ReadBehavior.err 100
        ⟨some [(some "1", [⟨some "1", none, none, 64, -21, 0, 5⟩])], some 0⟩).err =
      some PyErr.fileError ∧
    (refresh_state FetchBehavior.badStatus ReadBehavior.err 100
        ⟨some [(some "1", [⟨some "1", none, none, 64, -21, 0, 5⟩])], some 0⟩).state.all_buses =
      some [] ∧
    (some ([] : RouteMap)) ≠
      some [((some "1" : Option String), [(⟨some "1", none, none, 64, -21, 0, 5⟩ : Sighting)])] := by
  decide

/-- C1 amended: when the cache is due for a refresh and both sources are
unavailable, the refresh raises (for every previous state, including one
holding a snapshot), and the cache is left holding a freshly cleared empty
snapshot — the previous snapshot is discarded — while the timestamp keeps its
old value. -/
theorem refresh_totalFailure_empties_cache (f : FetchBehavior) (r : ReadBehavior)
    (now : Nat) (s : BusState) (hs : isStale s now) (hf : totalFailure f r) :
    (refresh_state f r now s).err ≠ none ∧
    (refresh_state f r now s).state.all_buses = some [] ∧
    (refresh_state f r now s).state.timestamp = s.timestamp := by
  rw [refresh_state_stale_eq f r now s hs]
  rcases hf with ⟨hf, hr⟩ | hf | hf <;> subst hf
  · subst hr; simp [load_state, fetch_state, read_state]
  · simp [load_state, fetch_state]
  · simp [load_state, fetch_state]

/-- Witness for `refresh_totalFailure_empties_cache` on the uninitialized
state with a network error. -/
theorem refresh_totalFailure_empties_cache_witness :
    (refresh_state FetchBehavior.netError ReadBehavior.err 100 ⟨none, none⟩).err ≠ none ∧
    (refresh_state FetchBehavior.netError ReadBehavior.err 100 ⟨none, none⟩).state.all_buses =
      some [] ∧
    (refresh_state FetchBehavior.netError ReadBehavior.err 100 ⟨none, none⟩).state.timestamp =
      (⟨none, none⟩ : BusState).timestamp :=
  refresh_totalFailure_empties_cache FetchBehavior.netError ReadBehavior.err 100
    ⟨none, none⟩ (Or.inl rfl) (Or.inr (Or.inl rfl))

/-- C2 counterexample: the remote fetch fails with a network error while the
local fallback file is present and parseable (one valid bus on route `"1"`);
the refresh nevertheless raises to the caller and the snapshot is NOT the
data obtained by parsing the local resource — no fallback takes place. -/
theorem fetch_exception_skips_fallback_cex :
    (refresh_state FetchBehavior.netError
        (ReadBehavior.ok [⟨some 64, some (-21), some 0, some "1", none, none, some 5⟩])
        100 ⟨none, none⟩).err = some PyErr.netError ∧
    (refresh_state FetchBehavior.netError
        (ReadBehavior.ok [⟨some 64, some (-21), some 0, some "1", none, none, some 5⟩])
        100 ⟨none, none⟩).state.all_buses ≠
      some (addBuses [⟨some 64, some (-21), some 0, some "1", none, none, some 5⟩] []).1 := by
  decide

/-- C2 amended: the fallback to the local snapshot file happens exactly when
the remote fetch completes with a non-success HTTP status; in that case the
refresh performs one fetch and one local read, surfaces no error, and the
resulting snapshot is identical to what parsing the local fallback resource
directly produces. -/
theorem badStatus_falls_back_to_local (root : List RawBus) (m : RouteMap)
    (now : Nat) (s : BusState) (hs : isStale s now)
    (hm : addBuses root [] = (m, none)) :
    refresh_state FetchBehavior.badStatus (ReadBehavior.ok root) now s =
      ⟨⟨some m, some now⟩, none, 1, 1⟩ := by
  rw [refresh_state_stale_eq _ _ now s hs]
  simp [load_state, fetch_state, read_state, buildFrom, hm]

/-- Witness for `badStatus_falls_back_to_local` with one concrete bus. -/
theorem badStatus_falls_back_to_local_witness :
    refresh_state FetchBehavior.badStatus
        (ReadBehavior.ok [⟨some 64, some (-21), some 0, some "1", none, none, some 5⟩])
        100 ⟨none, none⟩ =
      ⟨⟨some [(some "1", [⟨some "1", none, none, 64, -21, 0, 5⟩])], some 100⟩, none, 1, 1⟩ :=
  badStatus_falls_back_to_local
    [⟨some 64, some (-21), some 0, some "1", none, none, some 5⟩]
    [(some "1", [⟨some "1", none, none, 64, -21, 0, 5⟩])]
    100 ⟨none, none⟩ (Or.inl rfl) (by decide)

/-- C10: with a current snapshot in place (fresh timestamp) that has no entry
for route `rid`, `buses_on_route` does not raise: it returns the empty list,
and as a side effect of the defaultdict access it inserts `rid` (mapped to
the empty list) into the shared snapshot, so a subsequent `all_buses` inside
the staleness window returns a map that contains the key `rid`. -/
theorem buses_on_route_missing_key (f f' : FetchBehavior) (r r' : ReadBehavior)
    (now now' t : Nat) (m : RouteMap) (rid : String)
    (h : now - t < 60) (h' : now' - t < 60)
    (habs : rmLookup m (some rid) = none) :
    (buses_on_route f r now ⟨some m, some t⟩ rid).value = some [] ∧
    (buses_on_route f r now ⟨some m, some t⟩ rid).state =
      ⟨some (m ++ [(some rid, [])]), some t⟩ ∧
    (all_buses f' r' now' (buses_on_route f r now ⟨some m, some t⟩ rid).state).value =
      some (m ++ [(some rid, [])]) ∧
    rmLookup (m ++ [(some rid, [])]) (some rid) = some [] := by
  have h1 : refresh_state f r now ⟨some m, some t⟩ = ⟨⟨some m, some t⟩, none, 0, 0⟩ :=
    refresh_state_fresh_eq f r now t _ rfl h
  have hb : buses_on_route f r now ⟨some m, some t⟩ rid =
      ⟨some [], ⟨some (m ++ [(some rid, [])]), some t⟩, none, 0, 0⟩ := by
    simp [buses_on_route, h1, rmGetDefault, habs]
  have h2 : refresh_state f' r' now' (⟨some (m ++ [(some rid, [])]), some t⟩ : BusState) =
      ⟨⟨some (m ++ [(some rid, [])]), some t⟩, none, 0, 0⟩ :=
    refresh_state_fresh_eq f' r' now' t _ rfl h'
  refine ⟨by rw [hb], by rw [hb], ?_, rmLookup_append_absent m (some rid) habs⟩
  rw [hb]
  simp [all_buses, h2]

/-- Witness for `buses_on_route_missing_key` on an empty snapshot. -/
theorem buses_on_route_missing_key_witness :
    (buses_on_route FetchBehavior.netError ReadBehavior.err 10 ⟨some [], some 0⟩ "7").value =
      some [] ∧
    (buses_on_route FetchBehavior.netError ReadBehavior.err 10 ⟨some [], some 0⟩ "7").state =
      ⟨some ([] ++ [(some "7", [])]), some 0⟩ ∧
    (all_buses FetchBehavior.badBody ReadBehavior.err 20
        (buses_on_route FetchBehavior.netError ReadBehavior.err 10 ⟨some [], some 0⟩ "7").state).value =
      some ([] ++ [(some "7", [])]) ∧
    rmLookup ([] ++ [(some "7", [])]) (some "7") = some [] :=
  buses_on_route_missing_key FetchBehavior.netError FetchBehavior.badBody
    ReadBehavior.err ReadBehavior.err 10 20 0 [] "7" (by decide) (by decide) (by decide)

/-! Helper lemmas about digits and the service-code round trip. -/

theorem digitCharAux_isDigit (k : Nat) (h : k < 10) :
    (digitCharAux k).isDigit = true := by
  interval_cases k <;> decide

theorem digitCharAux_toNat (k : Nat) (h : k < 10) :
    (digitCharAux k).toNat = 48 + k := by
  interval_cases k <;> decide

theorem digitChar_isDigit (n : Nat) : (digitChar n).isDigit = true :=
  digitCharAux_isDigit _ (Nat.mod_lt n (by decide))

theorem digitChar_toNat (n : Nat) : (digitChar n).toNat = 48 + n % 10 :=
  digitCharAux_toNat _ (Nat.mod_lt n (by decide))

theorem natToDigits_length (w n : Nat) : (natToDigits w n).length = w := by
  induction w generalizing n with
  | zero => rfl
  | succ w ih => simp [natToDigits, ih]

theorem natToDigits_all_digits (w n : Nat) :
    (natToDigits w n).all Char.isDigit = true := by
  induction w generalizing n with
  | zero => rfl
  | succ w ih => simp [natToDigits, List.all_append, ih, digitChar_isDigit]

theorem digitsVal_append (l : List Char) (c : Char) :
    digitsVal (l ++ [c]) = digitsVal l * 10 + (c.toNat - 48) := by
  simp [digitsVal, List.foldl_append]

theorem natToDigits_val (w n : Nat) (h : n < 10 ^ w) :
    digitsVal (natToDigits w n) = n := by
  induction w generalizing n with
  | zero =>
      have h0 : n = 0 := Nat.lt_one_iff.mp (by simpa using h)
      subst h0; rfl
  | succ w ih =>
      rw [natToDigits, digitsVal_append, digitChar_toNat]
      have h10 : n / 10 < 10 ^ w := by
        rw [Nat.div_lt_iff_lt_mul (by decide)]
        calc n < 10 ^ (w + 1) := h
        _ = 10 ^ w * 10 := by rw [pow_succ]
      rw [ih _ h10]
      omega

theorem digitsVal?_eq (l : List Char) (hne : l ≠ [])
    (hall : l.all Char.isDigit = true) : digitsVal? l = some (digitsVal l) := by
  cases l with
  | nil => cases hne rfl
  | cons c cs => simp [digitsVal?, hall]

theorem pyInt?_of_digits (l : List Char) (hne : l ≠ [])
    (hall : l.all Char.isDigit = true) :
    pyInt? ⟨l⟩ = some ((digitsVal l : Nat) : Int) := by
  have hd : digitsVal? l = some (digitsVal l) := digitsVal?_eq l hne hall
  cases l with
  | nil => cases hne rfl
  | cons c cs =>
      have hc : c.isDigit = true := by
        have hmem := List.all_eq_true.mp hall c (List.mem_cons_self c cs)
        exact hmem
      have hcm : c ≠ '-' := by
        intro hcc; rw [hcc] at hc; exact absurd hc (by decide)
      have hcp : c ≠ '+' := by
        intro hcc; rw [hcc] at hc; exact absurd hc (by decide)
      show pyInt? ⟨c :: cs⟩ = some ((digitsVal (c :: cs) : Nat) : Int)
      unfold pyInt?
      simp only [String.toList]
      simp [hcm, hcp, hd]

theorem take_of_mk_append (l₁ l₂ : List Char) (n : Nat) (h : l₁.length = n) :
    (l₁ ++ l₂).take n = l₁ :=
  List.take_left' h

theorem drop_of_mk_append (l₁ l₂ : List Char) (n : Nat) (h : l₁.length = n) :
    (l₁ ++ l₂).drop n = l₂ :=
  List.drop_left' h

theorem encodeCode_toList (y mo d : Nat) (mask : List Char) :
    (encodeCode y mo d mask).toList =
      natToDigits 4 y ++ (natToDigits 2 mo ++ (natToDigits 2 d ++ '-' :: mask)) := by
  show natToDigits 4 y ++ natToDigits 2 mo ++ natToDigits 2 d ++ '-' :: mask =
    natToDigits 4 y ++ (natToDigits 2 mo ++ (natToDigits 2 d ++ '-' :: mask))
  simp [List.append_assoc]

theorem encodeCode_slice_year (y mo d : Nat) (mask : List Char) :
    pySlice (encodeCode y mo d mask) 0 4 = ⟨natToDigits 4 y⟩ := by
  show (⟨((encodeCode y mo d mask).toList.drop 0).take (4 - 0)⟩ : String) = ⟨natToDigits 4 y⟩
  rw [encodeCode_toList, List.drop_zero]
  exact congrArg String.mk (take_of_mk_append _ _ _ (natToDigits_length 4 y))

theorem encodeCode_slice_month (y mo d : Nat) (mask : List Char) :
    pySlice (encodeCode y mo d mask) 4 6 = ⟨natToDigits 2 mo⟩ := by
  show (⟨((encodeCode y mo d mask).toList.drop 4).take (6 - 4)⟩ : String) = ⟨natToDigits 2 mo⟩
  rw [encodeCode_toList, drop_of_mk_append _ _ _ (natToDigits_length 4 y)]
  exact congrArg String.mk (take_of_mk_append _ _ _ (natToDigits_length 2 mo))

theorem encodeCode_slice_day (y mo d : Nat) (mask : List Char) :
    pySlice (encodeCode y mo d mask) 6 8 = ⟨natToDigits 2 d⟩ := by
  show (⟨((encodeCode y mo d mask).toList.drop 6).take (8 - 6)⟩ : String) = ⟨natToDigits 2 d⟩
  have hl : (natToDigits 4 y ++ natToDigits 2 mo).length = 6 := by
    rw [List.length_append, natToDigits_length, natToDigits_length]
  rw [encodeCode_toList, ← List.append_assoc,
    drop_of_mk_append _ _ _ hl]
  exact congrArg String.mk (take_of_mk_append _ _ _ (natToDigits_length 2 d))

theorem encodeCode_slice_mask (y mo d : Nat) (mask : List Char) :
    pySlice (encodeCode y mo d mask) 9 16 = ⟨mask.take 7⟩ := by
  show (⟨((encodeCode y mo d mask).toList.drop 9).take (16 - 9)⟩ : String) = ⟨mask.take 7⟩
  have hl : ((natToDigits 4 y ++ natToDigits 2 mo) ++ (natToDigits 2 d ++ ['-'])).length = 9 := by
    simp [List.length_append, natToDigits_length]
  have hsplit : (encodeCode y mo d mask).toList =
      ((natToDigits 4 y ++ natToDigits 2 mo) ++ (natToDigits 2 d ++ ['-'])) ++ mask := by
    rw [encodeCode_toList]; simp [List.append_assoc]
  rw [hsplit, drop_of_mk_append _ _ _ hl]

theorem pyInt?_natToDigits (w n : Nat) (hw : 0 < w) (h : n < 10 ^ w) :
    pyInt? ⟨natToDigits w n⟩ = some ((n : Nat) : Int) := by
  have hne : natToDigits w n ≠ [] := by
    intro he
    have := natToDigits_length w n
    rw [he] at this
    simp at this
    omega
  rw [pyInt?_of_digits _ hne (natToDigits_all_digits w n), natToDigits_val w n h]

/-! Theorems for the claims about the schedule model. -/

/-- C5: for every service whose weekday mask has the 7 entries produced by a
well-formed code, `is_active_on_date d` succeeds and is true exactly when
`valid_from <= d` and the mask entry at `d`'s Monday-first weekday is true;
in particular it is false for any date before `valid_from` regardless of the
weekday. -/
theorem is_active_on_date_iff (s : BusServiceData) (d : PyDate)
    (h7 : s.weekdays.length = 7) :
    (is_active_on_date s d = some true ↔
      dateLe s.valid_from d = true ∧ s.weekdays.getD (pyWeekday d) false = true) ∧
    (dateLe s.valid_from d = false → is_active_on_date s d = some false) := by
  have hlt : pyWeekday d < s.weekdays.length := by
    rw [h7]; exact Nat.mod_lt _ (by decide)
  have hg : s.weekdays.get? (pyWeekday d) = some (s.weekdays.get ⟨pyWeekday d, hlt⟩) :=
    List.get?_eq_get hlt
  have hgD : s.weekdays.getD (pyWeekday d) false = s.weekdays.get ⟨pyWeekday d, hlt⟩ := by
    rw [List.getD_eq_getElem?_getD, ← List.get?_eq_getElem?, hg]; rfl
  constructor
  · by_cases hle : dateLe s.valid_from d = true
    · unfold is_active_on_date
      rw [if_pos hle, hg, hgD]
      simp [hle]
    · simp [is_active_on_date, hle]
  · intro hf
    simp [is_active_on_date, hf]

/-- Witness for `is_active_on_date_iff`: the service decoded from
`"20240115-MTWTF--"` queried on 2024-01-15 (a Monday). -/
theorem is_active_on_date_iff_witness :
    (is_active_on_date ⟨"20240115-MTWTF--", ⟨2024, 1, 15⟩,
        [true, true, true, true, true, false, false]⟩ ⟨2024, 1, 15⟩ = some true ↔
      dateLe (⟨2024, 1, 15⟩ : PyDate) ⟨2024, 1, 15⟩ = true ∧
        ([true, true, true, true, true, false, false] : List Bool).getD
          (pyWeekday ⟨2024, 1, 15⟩) false = true) ∧
    (dateLe (⟨2024, 1, 15⟩ : PyDate) ⟨2024, 1, 15⟩ = false →
      is_active_on_date ⟨"20240115-MTWTF--", ⟨2024, 1, 15⟩,
        [true, true, true, true, true, false, false]⟩ ⟨2024, 1, 15⟩ = some false) :=
  is_active_on_date_iff
    ⟨"20240115-MTWTF--", ⟨2024, 1, 15⟩, [true, true, true, true, true, false, false]⟩
    ⟨2024, 1, 15⟩ (by decide)

/-- C6 counterexample: the malformed (wrong-length) service code
`"20240115"` — 8 characters, no separator, no weekday mask — does NOT make
the decoder fail: it succeeds, yielding `valid_from` 2024-01-15 and an empty
weekday array. -/
theorem busService_wrong_length_succeeds_cex :
    busService? "20240115" = some ⟨"20240115", ⟨2024, 1, 15⟩, []⟩ ∧
    "20240115".length ≠ 16 := by
  constructor
  · decide
  · decide

/-- C6 amended: the decoder embedded in `BusService.__init__` maps every code
of the documented shape — a zero-padded 4-digit year, 2-digit month and
2-digit day forming a valid calendar date, a separator, then mask characters
— to the corresponding `valid_from` date and the Boolean weekday array read
from characters 9-15; and it fails whenever one of the three date fields does
not parse as an integer.  (Wrong length alone does not make it fail.) -/
theorem busService_decode_spec :
    (∀ (y mo d : Nat) (mask : List Char),
      1 ≤ y → y ≤ 9999 → 1 ≤ mo → mo ≤ 12 → 1 ≤ d → d ≤ daysInMonth y mo →
      busService? (encodeCode y mo d mask) =
        some ⟨encodeCode y mo d mask, ⟨y, mo, d⟩,
          (mask.take 7).map (fun c => c ≠ '-')⟩) ∧
    (∀ code : String,
      pyInt? (pySlice code 0 4) = none ∨ pyInt? (pySlice code 4 6) = none ∨
        pyInt? (pySlice code 6 8) = none →
      busService? code = none) := by
  constructor
  · intro y mo d mask hy1 hy2 hmo1 hmo2 hd1 hd2
    have hyv : pyInt? (pySlice (encodeCode y mo d mask) 0 4) = some ((y : Nat) : Int) := by
      rw [encodeCode_slice_year]
      exact pyInt?_natToDigits 4 y (by decide) (by omega)
    have hmov : pyInt? (pySlice (encodeCode y mo d mask) 4 6) = some ((mo : Nat) : Int) := by
      rw [encodeCode_slice_month]
      exact pyInt?_natToDigits 2 mo (by decide) (by omega)
    have hdayInMonth : daysInMonth y mo ≤ 31 := by
      unfold daysInMonth monthLengths
      rcases Nat.lt_or_ge (mo - 1) 12 with hlt | hge
      · interval_cases h : (mo - 1) <;> by_cases hl : isLeap y <;> simp [hl]
      · rw [List.getD_eq_default]
        · omega
        · simp
          omega
    have hdv : pyInt? (pySlice (encodeCode y mo d mask) 6 8) = some ((d : Nat) : Int) := by
      rw [encodeCode_slice_day]
      exact pyInt?_natToDigits 2 d (by decide) (by omega)
    have hdate : mkDate? ((y : Nat) : Int) ((mo : Nat) : Int) ((d : Nat) : Int) =
        some ⟨y, mo, d⟩ := by
      unfold mkDate?
      rw [if_pos]
      · simp
      · refine ⟨by exact_mod_cast hy1, by exact_mod_cast hy2, by exact_mod_cast hmo1,
          by exact_mod_cast hmo2, by exact_mod_cast hd1, ?_⟩
        rw [Int.toNat_natCast, Int.toNat_natCast]
        exact_mod_cast hd2
    rw [busService?]
    rw [hyv, hmov, hdv]
    simp only [Option.bind_some, Option.some_bind, bind, Option.bind]
    rw [hdate]
    simp only [Option.some_bind, Option.bind_some]
    rw [encodeCode_slice_mask]
    rfl
  · intro code hnone
    rcases hnone with h | h | h
    · simp [busService?, h]
    · cases hy : pyInt? (pySlice code 0 4) <;> simp [busService?, hy, h]
    · cases hy : pyInt? (pySlice code 0 4) <;>
        cases hmo : pyInt? (pySlice code 4 6) <;>
        simp [busService?, hy, hmo, h]

/-- Witness for `busService_decode_spec`: the positive branch at the code for
2024-01-15 with mask `"MTWTF--"`, and the failure branch at a code with a
non-numeric year field. -/
theorem busService_decode_spec_witness :
    busService? (encodeCode 2024 1 15 "MTWTF--".toList) =
      some ⟨encodeCode 2024 1 15 "MTWTF--".toList, ⟨2024, 1, 15⟩,
        ("MTWTF--".toList.take 7).map (fun c => c ≠ '-')⟩ ∧
    busService? "ABCD0115-MTWTF--" = none :=
  ⟨busService_decode_spec.1 2024 1 15 "MTWTF--".toList (by decide) (by decide)
      (by decide) (by decide) (by decide) (by decide),
   busService_decode_spec.2 "ABCD0115-MTWTF--" (Or.inl (by decide))⟩

/-! Helper lemmas about the catalog dictionaries and the loader. -/

theorem dLookup_dInsert {β : Type} (m : List (String × β)) (k' k : String) (v : β) :
    dLookup (dInsert m k' v) k = if k' = k then some v else dLookup m k := by
  induction m with
  | nil => simp [dInsert, dLookup]
  | cons p m ih =>
      obtain ⟨k₀, v₀⟩ := p
      by_cases h0 : k₀ = k'
      · subst h0
        by_cases hk : k₀ = k
        · subst hk; simp [dInsert, dLookup]
        · simp [dInsert, dLookup, hk]
      · by_cases hk : k₀ = k
        · subst hk
          have hne : ¬(k' = k₀) := fun h => h0 h.symm
          simp [dInsert, dLookup, h0, hne]
        · simp [dInsert, dLookup, h0, hk, ih]

theorem dLookup_dUpdate {β : Type} (m : List (String × β)) (k' k : String) (g : β → β) :
    dLookup (dUpdate m k' g) k =
      if k' = k then (dLookup m k).map g else dLookup m k := by
  induction m with
  | nil => simp [dUpdate, dLookup]
  | cons p m ih =>
      obtain ⟨k₀, v₀⟩ := p
      by_cases h0 : k₀ = k'
      · subst h0
        by_cases hk : k₀ = k
        · subst hk; simp [dUpdate, dLookup]
        · simp [dUpdate, dLookup, hk]
      · by_cases hk : k₀ = k
        · subst hk
          have hne : ¬(k' = k₀) := fun h => h0 h.symm
          simp [dUpdate, dLookup, h0, hne]
        · simp [dUpdate, dLookup, h0, hk, ih]

theorem dLookup_dInsert_isSome {β : Type} (m : List (String × β)) (k' k : String)
    (v : β) (h : (dLookup m k).isSome = true) :
    (dLookup (dInsert m k' v) k).isSome = true := by
  rw [dLookup_dInsert]
  by_cases hk : k' = k <;> simp [hk, h]

theorem dLookup_dUpdate_isSome {β : Type} (m : List (String × β)) (k' k : String)
    (g : β → β) (h : (dLookup m k).isSome = true) :
    (dLookup (dUpdate m k' g) k).isSome = true := by
  rw [dLookup_dUpdate]
  by_cases hk : k' = k <;> simp [hk, h]

theorem route_get_services (c : Catalog) (rid : String) :
    (route_get c rid).all_services = c.all_services := by
  unfold route_get
  cases dLookup c.all_routes rid <;> rfl

theorem route_get_trips (c : Catalog) (rid : String) :
    (route_get c rid).all_trips = c.all_trips := by
  unfold route_get
  cases dLookup c.all_routes rid <;> rfl

theorem service_get_trips (c : Catalog) (sid : String) :
    (service_get c sid).1.all_trips = c.all_trips := by
  unfold service_get
  cases dLookup c.all_services sid
  · cases busService? sid <;> rfl
  · rfl

theorem service_get_services_isSome (c : Catalog) (sid k : String)
    (h : (dLookup c.all_services k).isSome = true) :
    (dLookup (service_get c sid).1.all_services k).isSome = true := by
  unfold service_get
  cases dLookup c.all_services sid
  · cases busService? sid
    · exact h
    · exact dLookup_dInsert_isSome _ _ _ _ h
  · exact h

theorem route_add_service_services (c : Catalog) (rid sid : String) :
    (route_add_service c rid sid).all_services = c.all_services := rfl

theorem route_add_service_trips (c : Catalog) (rid sid : String) :
    (route_add_service c rid sid).all_trips = c.all_trips := rfl

theorem trip_new_services (c : Catalog) (t : TripData) :
    (trip_new c t).all_services = c.all_services := rfl

theorem service_add_trip_trips (c : Catalog) (sid tid : String) :
    (service_add_trip c sid tid).all_trips = c.all_trips := rfl

theorem procLine_trips_isSome (c : Catalog) (line tid : String)
    (h : (dLookup c.all_trips tid).isSome = true) :
    (dLookup (procLine c line).1.all_trips tid).isSome = true := by
  unfold procLine
  dsimp only
  split
  · split
    · rename_i rid rest heq
      cases hs : service_get (route_get c rid) ((pySplit line ',').getD 1 "") with
      | mk c₂ so =>
          have h₂ : c₂.all_trips = c.all_trips := by
            have hst := service_get_trips (route_get c rid) ((pySplit line ',').getD 1 "")
            rw [hs] at hst
            rw [hst, route_get_trips]
          cases so with
          | none =>
              simp only [h₂]
              exact h
          | some sid =>
              simp only [service_add_trip_trips, route_add_service_trips]
              show (dLookup (dInsert c₂.all_trips _ _) tid).isSome = true
              exact dLookup_dInsert_isSome _ _ _ _ (h₂ ▸ h)
    · exact h
  · exact h

theorem procLine_services_isSome (c : Catalog) (line sid : String)
    (h : (dLookup c.all_services sid).isSome = true) :
    (dLookup (procLine c line).1.all_services sid).isSome = true := by
  unfold procLine
  dsimp only
  split
  · split
    · rename_i rid rest heq
      cases hs : service_get (route_get c rid) ((pySplit line ',').getD 1 "") with
      | mk c₂ so =>
          have h₂ : (dLookup c₂.all_services sid).isSome = true := by
            have hss := service_get_services_isSome (route_get c rid)
              ((pySplit line ',').getD 1 "") sid (by rw [route_get_services]; exact h)
            rw [hs] at hss
            exact hss
          cases so with
          | none => exact h₂
          | some sid' =>
              show (dLookup (dUpdate _ _ _) sid).isSome = true
              simp only [trip_new_services, route_add_service_services]
              exact dLookup_dUpdate_isSome _ _ _ _ h₂
    · exact h
  · exact h

theorem runLines_trips_isSome (lines : List String) (c : Catalog) (tid : String)
    (h : (dLookup c.all_trips tid).isSome = true) :
    (dLookup (runLines lines c).1.all_trips tid).isSome = true := by
  induction lines generalizing c with
  | nil => exact h
  | cons l ls ih =>
      unfold runLines
      by_cases ht : pyStrip l = ""
      · simp only [ht, if_true]
        exact ih c h
      · simp only [ht, if_false]
        cases hp : procLine c (pyStrip l) with
        | mk c' e =>
            have h' : (dLookup c'.all_trips tid).isSome = true := by
              have := procLine_trips_isSome c (pyStrip l) tid h
              rw [hp] at this
              exact this
            cases e
            · exact ih c' h'
            · exact h'

theorem runLines_services_isSome (lines : List String) (c : Catalog) (sid : String)
    (h : (dLookup c.all_services sid).isSome = true) :
    (dLookup (runLines lines c).1.all_services sid).isSome = true := by
  induction lines generalizing c with
  | nil => exact h
  | cons l ls ih =>
      unfold runLines
      by_cases ht : pyStrip l = ""
      · simp only [ht, if_true]
        exact ih c h
      · simp only [ht, if_false]
        cases hp : procLine c (pyStrip l) with
        | mk c' e =>
            have h' : (dLookup c'.all_services sid).isSome = true := by
              have := procLine_services_isSome c (pyStrip l) sid h
              rw [hp] at this
              exact this
            cases e
            · exact ih c' h'
            · exact h'

theorem runLines_cons_bad (bad : String) (ls : List String) (c : Catalog)
    (hb : ¬(pyStrip bad = "")) (h8 : ¬((pySplit (pyStrip bad) ',').length = 8)) :
    runLines (bad :: ls) c = (c, some PyErr.assertionError) := by
  unfold runLines
  simp only [hb, if_false]
  unfold procLine
  simp only [h8, if_false]

theorem runLines_cons_ok (l : String) (ls : List String) (c c' : Catalog)
    (hb : ¬(pyStrip l = "")) (hp : procLine c (pyStrip l) = (c', none)) :
    runLines (l :: ls) c = runLines ls c' := by
  conv_lhs => unfold runLines
  simp only [hb, if_false, hp]

/-! Theorems for the claims about the static loader. -/

/-- C7 counterexample: loading a trips source whose third line `"bad,row"`
has 2 fields (not 8) fails with an assertion error, but the registries are
NOT left free of partial state: the route, service and trip from the
preceding good row remain registered. -/
theorem initRoutes_partial_state_cex :
    (initRoutes [tripsHeader, goodTripRow, "bad,row"] emptyCatalog).2 =
      some PyErr.assertionError ∧
    (initRoutes [tripsHeader, goodTripRow, "bad,row"] emptyCatalog).1.all_routes =
      [("1", ["20240115-MTWTF--"])] ∧
    dLookup (initRoutes [tripsHeader, goodTripRow, "bad,row"] emptyCatalog).1.all_trips
      "T1" ≠ none := by
  refine ⟨by decide, by decide, by decide⟩

/-- C7 amended: a row with the wrong number of fields fails the whole load
deterministically with the structural (assertion) error, but the load does
NOT leave the registries free of partial state: the route, service and trip
parsed from the rows before the malformed one remain registered. -/
theorem initRoutes_bad_row_partial_state (bad : String)
    (hb : ¬(pyStrip bad = ""))
    (h8 : ¬((pySplit (pyStrip bad) ',').length = 8)) :
    (initRoutes [tripsHeader, goodTripRow, bad] emptyCatalog).2 =
      some PyErr.assertionError ∧
    dLookup (initRoutes [tripsHeader, goodTripRow, bad] emptyCatalog).1.all_routes "1" =
      some ["20240115-MTWTF--"] ∧
    dLookup (initRoutes [tripsHeader, goodTripRow, bad] emptyCatalog).1.all_trips
      "T1" ≠ none := by
  have hrun : initRoutes [tripsHeader, goodTripRow, bad] emptyCatalog =
      (goodTripCatalog, some PyErr.assertionError) := by
    unfold initRoutes
    have hdrop : ([tripsHeader, goodTripRow, bad].drop 1) = [goodTripRow, bad] := rfl
    rw [hdrop]
    have hc0 : ({ emptyCatalog with all_routes := [] } : Catalog) = emptyCatalog := rfl
    rw [hc0]
    rw [runLines_cons_ok goodTripRow [bad] emptyCatalog goodTripCatalog
      (by decide) (by decide)]
    exact runLines_cons_bad bad [] goodTripCatalog hb h8
  rw [hrun]
  refine ⟨rfl, by decide, by decide⟩

/-- Witness for `initRoutes_bad_row_partial_state` at the 2-field row
`"bad,row"`. -/
theorem initRoutes_bad_row_partial_state_witness :
    (initRoutes [tripsHeader, goodTripRow, "bad,row"] emptyCatalog).2 =
      some PyErr.assertionError ∧
    dLookup (initRoutes [tripsHeader, goodTripRow, "bad,row"] emptyCatalog).1.all_routes
      "1" = some ["20240115-MTWTF--"] ∧
    dLookup (initRoutes [tripsHeader, goodTripRow, "bad,row"] emptyCatalog).1.all_trips
      "T1" ≠ none :=
  initRoutes_bad_row_partial_state "bad,row" (by decide) (by decide)

/-- C8 counterexample: after a second load whose source contains only trip
`T2` on route `"2"`, the trip and service registries still contain the first
load's `T1` entries (merged, not replaced); only the route registry was
rebuilt (route `"1"` is gone). -/
theorem initRoutes_reload_keeps_old_entries_cex :
    (initRoutes [tripsHeader, secondTripRow]
        (initRoutes [tripsHeader, goodTripRow] emptyCatalog).1).2 = none ∧
    dLookup (initRoutes [tripsHeader, secondTripRow]
        (initRoutes [tripsHeader, goodTripRow] emptyCatalog).1).1.all_trips "T1" ≠ none ∧
    dLookup (initRoutes [tripsHeader, secondTripRow]
        (initRoutes [tripsHeader, goodTripRow] emptyCatalog).1).1.all_services
      "20240115-MTWTF--" ≠ none ∧
    dLookup (initRoutes [tripsHeader, secondTripRow]
        (initRoutes [tripsHeader, goodTripRow] emptyCatalog).1).1.all_routes "1" =
      none := by
  refine ⟨by decide, by decide, by decide, by decide⟩

/-- C8 amended: re-invoking the loader discards and rebuilds only the route
registry (the previous route registry has no effect on the result), while the
service and trip registries are merged across loads: every trip id and
service id registered before the reload is still registered afterwards. -/
theorem initRoutes_reload_merges (lines : List String) (c : Catalog)
    (R : List (String × List String)) (tid sid : String)
    (ht : (dLookup c.all_trips tid).isSome = true)
    (hs : (dLookup c.all_services sid).isSome = true) :
    initRoutes lines { c with all_routes := R } = initRoutes lines c ∧
    (dLookup (initRoutes lines c).1.all_trips tid).isSome = true ∧
    (dLookup (initRoutes lines c).1.all_services sid).isSome = true := by
  refine ⟨rfl, ?_, ?_⟩
  · exact runLines_trips_isSome (lines.drop 1) { c with all_routes := [] } tid ht
  · exact runLines_services_isSome (lines.drop 1) { c with all_routes := [] } sid hs

/-- Witness for `initRoutes_reload_merges`: reloading `secondTripRow` over
the catalog produced by loading `goodTripRow`. -/
theorem initRoutes_reload_merges_witness :
    initRoutes [tripsHeader, secondTripRow]
        { (initRoutes [tripsHeader, goodTripRow] emptyCatalog).1 with
            all_routes := [("9", [])] } =
      initRoutes [tripsHeader, secondTripRow]
        (initRoutes [tripsHeader, goodTripRow] emptyCatalog).1 ∧
    (dLookup (initRoutes [tripsHeader, secondTripRow]
        (initRoutes [tripsHeader, goodTripRow] emptyCatalog).1).1.all_trips
      "T1").isSome = true ∧
    (dLookup (initRoutes [tripsHeader, secondTripRow]
        (initRoutes [tripsHeader, goodTripRow] emptyCatalog).1).1.all_services
      "20240115-MTWTF--").isSome = true :=
  initRoutes_reload_merges [tripsHeader, secondTripRow]
    (initRoutes [tripsHeader, goodTripRow] emptyCatalog).1 [("9", [])]
    "T1" "20240115-MTWTF--" (by decide) (by decide)

/-! Theorems for the claim about the distance function. -/

/-- C9: for all (lat, lon) pairs over the reals, the haversine `distance` is
zero on equal points and symmetric in its two arguments. -/
theorem distance_self_and_symm :
    (∀ x : ℝ × ℝ, distance x x = 0) ∧
    (∀ a b : ℝ × ℝ, distance a b = distance b a) := by
  constructor
  · intro x
    simp [distance, radians, sub_self, zero_mul, zero_div, Real.sin_zero,
      mul_zero, zero_add, add_zero, Real.sqrt_zero, sub_zero, Real.sqrt_one,
      atan2, zero_lt_one, Real.arctan_zero]
  · intro a b
    have hsin1 : Real.sin (radians (a.1 - b.1) / 2) =
        -Real.sin (radians (b.1 - a.1) / 2) := by
      have h : radians (a.1 - b.1) = -(radians (b.1 - a.1)) := by
        unfold radians; ring
      rw [h, neg_div, Real.sin_neg]
    have hsin2 : Real.sin (radians (a.2 - b.2) / 2) =
        -Real.sin (radians (b.2 - a.2) / 2) := by
      have h : radians (a.2 - b.2) = -(radians (b.2 - a.2)) := by
        unfold radians; ring
      rw [h, neg_div, Real.sin_neg]
    have hA : Real.sin (radians (b.1 - a.1) / 2) * Real.sin (radians (b.1 - a.1) / 2) +
        Real.cos (radians a.1) * Real.cos (radians b.1) *
          Real.sin (radians (b.2 - a.2) / 2) * Real.sin (radians (b.2 - a.2) / 2) =
        Real.sin (radians (a.1 - b.1) / 2) * Real.sin (radians (a.1 - b.1) / 2) +
        Real.cos (radians b.1) * Real.cos (radians a.1) *
          Real.sin (radians (a.2 - b.2) / 2) * Real.sin (radians (a.2 - b.2) / 2) := by
      rw [hsin1, hsin2]; ring
    show EARTH_RADIUS * (2 * atan2 _ _) = EARTH_RADIUS * (2 * atan2 _ _)
    rw [hA]

end Straeto
